import Mathlib

/-!
Shallow embedding of the `re_agent` valuation engine and cache/rate-limit
layer (src/re_agent/arv.py, utils.py, cache.py, config.py, exc.py),
with theorems settling the frozen claims about it.

Modelling conventions:
* Python floats are modelled by exact rationals (`ℚ`); all numeric claims
  here involve only values on which Python double arithmetic is exact or
  agrees with the rational result after the code's final decimal rounding.
* A Python value that can appear in a subject/comp record field is `PyVal`:
  `none` (absent key or `None` — the code only ever inspects these through
  truthiness, which cannot tell them apart), a number, or a string.  A
  string carries the result Python's `float()` parser would give on it
  (`Option ℚ`, `Option.none` meaning `float()` raises `ValueError`); the
  parser itself is outside the embedding.
* Raising code is embedded in `Except PyErr`.
-/

/-- A Python value as stored in a subject / comparable record field. -/
inductive PyVal where
  | none
  | num (q : ℚ)
  | str (s : String) (parsed : Option ℚ)
deriving DecidableEq

/-- Python truthiness for the values above: `None`, `0.0` and `""` are falsy. -/
def PyVal.truthy : PyVal → Bool
  | .none => false
  | .num q => if q = 0 then false else true
  | .str s _ => if s = "" then false else true

/-- Python `a or b`: returns `a` when truthy, else `b`. -/
def pyOr (a b : PyVal) : PyVal := if a.truthy then a else b

/-- Python truthiness of an `Optional[float]`: `None` and `0.0` are falsy. -/
def optTruthy : Option ℚ → Bool
  | Option.none => false
  | some q => if q = 0 then false else true

/-- Python `x or 0` on an `Optional[float]`: `None → 0`, `0.0 → 0`, `q → q`;
this coincides with `getD 0` in every case. -/
def pyOrZero (x : Option ℚ) : ℚ := x.getD 0

/-- Python `str.lower()` on the character list (ASCII-faithful). -/
def strLower (s : String) : String := ⟨s.data.map Char.toLower⟩

/-- `str(v).lower()` for the values the filter compares home types with.
`str(None).lower() = "none"`; the rendering of numeric values is abstracted
(the claims only exercise string or absent home types). -/
def pyStrLower : PyVal → String
  | .none => "none"
  | .num _ => "<number>"
  | .str s _ => strLower s

/-- The exceptions the embedded core can raise (src/re_agent/exc.py plus
Python's own `ValueError` escaping from `float()`). -/
inductive PyErr where
  | valueError
  | missingField (msg : String)
  | noComps (msg : String)
deriving DecidableEq

/-- src/re_agent/utils.py `safe_float`: `None`/`""` map to the default,
numbers pass through, any other string goes through `float()`, which raises
`ValueError` when the string does not parse. -/
def safe_float (x : PyVal) (default : Option ℚ) : Except PyErr (Option ℚ) :=
  match x with
  | .none => .ok default
  | .num q => .ok (some q)
  | .str s p =>
    if s = "" then .ok default
    else
      match p with
      | some q => .ok (some q)
      | Option.none => .error PyErr.valueError

/-- src/re_agent/utils.py `median` (the input lists here are lists of
floats, so the `v is not None` pre-filter is a no-op and is dropped). -/
def median (values : List ℚ) : Option ℚ :=
  let arr := values.insertionSort (· ≤ ·)
  let n := arr.length
  if n = 0 then Option.none
  else if n % 2 = 1 then some (arr.getD (n / 2) 0)
  else some ((arr.getD (n / 2 - 1) 0 + arr.getD (n / 2) 0) / 2)

/-- The inner `percentile` closure of src/re_agent/utils.py `iqr`, over an
already sorted array.  `int(k)` truncates; `k ≥ 0` at both call sites, so
truncation is the floor.  All indices used are `< arr.length`, so `getD`
agrees with Python's indexing. -/
def percentileOf (arr : List ℚ) (p : ℚ) : ℚ :=
  let n := arr.length
  let k := ((n : ℚ) - 1) * p
  let f := (⌊k⌋).toNat
  let c := min (f + 1) (n - 1)
  if f = c then arr.getD f 0
  else arr.getD f 0 * ((c : ℚ) - k) + arr.getD c 0 * (k - (f : ℚ))

/-- src/re_agent/utils.py `iqr` (declared `Optional[float]` but it always
returns a float: `0.0` below 4 samples, `max(0,...)` otherwise). -/
def iqr (values : List ℚ) : ℚ :=
  let arr := values.insertionSort (· ≤ ·)
  let n := arr.length
  if n < 4 then 0
  else max 0 (percentileOf arr (3/4) - percentileOf arr (1/4))

/-- src/re_agent/utils.py `clamp01`. -/
def clamp01 (x : ℚ) : ℚ := max 0 (min 1 x)

/-- Python 3 `round(q, ndigits)` on the exact value: round half to even. -/
def pyRoundInt (q : ℚ) : ℤ :=
  let f := ⌊q⌋
  let r := q - (f : ℚ)
  if r < 1/2 then f
  else if 1/2 < r then f + 1
  else if f % 2 = 0 then f else f + 1

/-- `round(q, ndigits)` for `ndigits ≥ 0`. -/
def pyRound (q : ℚ) (ndigits : ℕ) : ℚ :=
  (pyRoundInt (q * 10 ^ ndigits) : ℚ) / 10 ^ ndigits

/-! ### Configuration (src/re_agent/config.py), the fields the core reads -/

/-- `Adjustments` with its pydantic defaults. -/
structure Adjustments where
  bed_step_pct : ℚ := 4/100
  bath_step_pct : ℚ := 5/100
  lot_size_cap_ratio : ℚ := 2
deriving DecidableEq

/-- `ArvConfig`, restricted to the fields `arv.py` reads. -/
structure ArvConfig where
  min_comps : ℤ := 3
  adjustments : Adjustments := {}
deriving DecidableEq

/-- `ProfitConfig` with its pydantic defaults. -/
structure ProfitConfig where
  rehab_budget : Option ℚ := Option.none
  closing_costs_pct : ℚ := 3/100
  selling_costs_pct : ℚ := 6/100
  misc_buffer_pct : ℚ := 2/100
  moe_pct_conservative : ℚ := 10/100
  moe_pct_optimistic : ℚ := 3/100
deriving DecidableEq

/-- `AppConfig`, restricted to the fields `arv.py` reads.  `profit_config`
is never `None` (pydantic `default_factory`), and a pydantic model is
always truthy, so the code's `if cfg.profit_config` guard is vacuous. -/
structure AppConfig where
  arv_config : ArvConfig := {}
  profit_config : ProfitConfig := {}
deriving DecidableEq

/-! ### Subject and comparable records (the dict shapes `arv.py` reads) -/

/-- A subject-property dict: every key `_extract_subject_fields` or the
filter may read.  An absent key is `PyVal.none` (`dict.get` returns `None`
and the code only looks through truthiness). -/
structure SubjectDict where
  price : PyVal := PyVal.none
  listPrice : PyVal := PyVal.none
  bedrooms : PyVal := PyVal.none
  beds : PyVal := PyVal.none
  bathrooms : PyVal := PyVal.none
  baths : PyVal := PyVal.none
  livingArea : PyVal := PyVal.none
  sqft : PyVal := PyVal.none
  lotAreaValue : PyVal := PyVal.none
  lotSize : PyVal := PyVal.none
  lotArea : PyVal := PyVal.none
  homeType : PyVal := PyVal.none
  home_type : PyVal := PyVal.none
  yearBuilt : PyVal := PyVal.none
deriving DecidableEq

/-- A comparable-sale dict: every key `_filter_and_ppsf` or the bed/bath
mean computation may read. -/
structure CompDict where
  price : PyVal := PyVal.none
  soldPrice : PyVal := PyVal.none
  sale_price : PyVal := PyVal.none
  livingArea : PyVal := PyVal.none
  sqft : PyVal := PyVal.none
  living_area : PyVal := PyVal.none
  lotAreaValue : PyVal := PyVal.none
  lotSize : PyVal := PyVal.none
  lot_area : PyVal := PyVal.none
  homeType : PyVal := PyVal.none
  home_type : PyVal := PyVal.none
  bedrooms : PyVal := PyVal.none
  beds : PyVal := PyVal.none
  bathrooms : PyVal := PyVal.none
  baths : PyVal := PyVal.none
deriving DecidableEq

/-- The result of `_extract_subject_fields`. -/
structure SubjectFields where
  price : Option ℚ
  beds : Option ℚ
  baths : Option ℚ
  sqft : Option ℚ
  lot_sqft : Option ℚ
  home_type : PyVal
  year_built : Option ℚ
deriving DecidableEq

/-- src/re_agent/arv.py `_extract_subject_fields`.  The dict literal
evaluates its entries in order, so the first `safe_float` that raises
propagates. -/
def _extract_subject_fields (s : SubjectDict) : Except PyErr SubjectFields :=
  match safe_float (pyOr s.price s.listPrice) Option.none with
  | .error e => .error e
  | .ok price =>
  match safe_float (pyOr s.bedrooms s.beds) Option.none with
  | .error e => .error e
  | .ok beds =>
  match safe_float (pyOr s.bathrooms s.baths) Option.none with
  | .error e => .error e
  | .ok baths =>
  match safe_float (pyOr s.livingArea s.sqft) Option.none with
  | .error e => .error e
  | .ok sqft =>
  match safe_float (pyOr (pyOr s.lotAreaValue s.lotSize) s.lotArea) Option.none with
  | .error e => .error e
  | .ok lot_sqft =>
  match safe_float s.yearBuilt Option.none with
  | .error e => .error e
  | .ok year_built =>
    .ok { price := price, beds := beds, baths := baths, sqft := sqft,
          lot_sqft := lot_sqft, home_type := pyOr s.homeType s.home_type,
          year_built := year_built }

/-- The body of the `for c in comps` loop of `_filter_and_ppsf` for one
candidate: `.ok Option.none` is `continue` (candidate dropped), `.ok (some v)`
appends the PPSF sample `v`, `.error` is an escaping exception.  Note the
three `safe_float` coercions all run before any skip test. -/
def compPpsf (s_sqft : ℚ) (s_home_type : PyVal) (s_lot lot_cap : ℚ) (c : CompDict) :
    Except PyErr (Option ℚ) :=
  match safe_float (pyOr (pyOr c.price c.soldPrice) c.sale_price) Option.none with
  | .error e => .error e
  | .ok price =>
  match safe_float (pyOr (pyOr c.livingArea c.sqft) c.living_area) Option.none with
  | .error e => .error e
  | .ok sqft =>
  match safe_float (pyOr (pyOr c.lotAreaValue c.lotSize) c.lot_area) Option.none with
  | .error e => .error e
  | .ok lot_sqft =>
    let home_type := pyOr c.homeType c.home_type
    if optTruthy price = false ∨ optTruthy sqft = false ∨ sqft.getD 0 ≤ 0 then
      .ok Option.none
    else if s_home_type.truthy = true ∧ home_type.truthy = true ∧
        pyStrLower home_type ≠ pyStrLower s_home_type then
      .ok Option.none
    else if s_sqft ≠ 0 ∧
        ¬ (8/10 * s_sqft ≤ sqft.getD 0 ∧ sqft.getD 0 ≤ 12/10 * s_sqft) then
      .ok Option.none
    else if s_lot ≠ 0 ∧ optTruthy lot_sqft = true ∧ lot_cap * s_lot < lot_sqft.getD 0 then
      .ok Option.none
    else
      .ok (some (price.getD 0 / sqft.getD 0))

/-- The `for` loop of `_filter_and_ppsf`, appending surviving samples in
order. -/
def filterLoop (s_sqft : ℚ) (s_home_type : PyVal) (s_lot lot_cap : ℚ) :
    List CompDict → Except PyErr (List ℚ)
  | [] => .ok []
  | c :: rest =>
    match compPpsf s_sqft s_home_type s_lot lot_cap c with
    | .error e => .error e
    | .ok r =>
      match filterLoop s_sqft s_home_type s_lot lot_cap rest with
      | .error e => .error e
      | .ok tail =>
        match r with
        | Option.none => .ok tail
        | some v => .ok (v :: tail)

/-- src/re_agent/arv.py `_filter_and_ppsf`. -/
def _filter_and_ppsf (comps : List CompDict) (subject : SubjectDict) (cfg : AppConfig) :
    Except PyErr (List ℚ) :=
  match _extract_subject_fields subject with
  | .error e => .error e
  | .ok s =>
    filterLoop (pyOrZero s.sqft) s.home_type (pyOrZero s.lot_sqft)
      cfg.arv_config.adjustments.lot_size_cap_ratio comps

/-- src/re_agent/arv.py `_confidence_from_ppsf`.  `not med or med <= 0`
collapses to `med ≤ 0` once `median` returned a value, and `iqr(...) or 0.0`
is the identity because `iqr` never returns `None`. -/
def _confidence_from_ppsf (ppsf_vals : List ℚ) (min_comps : ℤ) : ℚ :=
  if ppsf_vals = [] then 0
  else
    match median ppsf_vals with
    | Option.none => 0
    | some med =>
      if med ≤ 0 then 0
      else
        let disp := iqr ppsf_vals / med
        let n := (ppsf_vals.length : ℚ)
        let n_score := clamp01 (n / ((max (min_comps * 2) 1 : ℤ) : ℚ))
        let spread_score := 1 / (1 + disp)
        clamp01 (1/2 * n_score + 1/2 * spread_score)

/-- The spec-side confidence formula, written from the claim's words:
clamp01(0.5 × clamp01(count / (2 × min_comps)) + 0.5 × 1/(1 + IQR/median)),
with the same 0-cases; used to compare against `_confidence_from_ppsf`. -/
def confidence_spec (ppsf_vals : List ℚ) (min_comps : ℤ) : ℚ :=
  if ppsf_vals = [] then 0
  else
    match median ppsf_vals with
    | Option.none => 0
    | some med =>
      if med ≤ 0 then 0
      else
        let disp := iqr ppsf_vals / med
        let n := (ppsf_vals.length : ℚ)
        let n_score := clamp01 (n / ((2 * min_comps : ℤ) : ℚ))
        let spread_score := 1 / (1 + disp)
        clamp01 (1/2 * n_score + 1/2 * spread_score)

/-! ### `estimate_arv_and_profit` (src/re_agent/arv.py lines 84–177) -/

/-- The `comps_payload` dict: `comps_payload.get("comps") or
comps_payload.get("properties") or []`. -/
structure CompsPayload where
  comps : Option (List CompDict) := Option.none
  properties : Option (List CompDict) := Option.none

/-- Python `a or b` where `a` is an optional list (falsy when `None` or
empty). -/
def listOrElse (a : Option (List CompDict)) (b : List CompDict) : List CompDict :=
  match a with
  | some l => if l = [] then b else l
  | Option.none => b

/-- The comp list the engine works on. -/
def payloadComps (p : CompsPayload) : List CompDict :=
  listOrElse p.comps (listOrElse p.properties [])

/-- The output row `estimate_arv_and_profit` builds (its `row.update`
keys). -/
structure ArvRow where
  arv_estimate : ℚ
  arv_ppsf : ℚ
  comp_count : ℕ
  arv_confidence : ℚ
  list_to_arv_pct : ℚ
  profit_conservative : Option ℚ
  profit_median : Option ℚ
  profit_optimistic : Option ℚ
deriving DecidableEq

/-- One of the two bed/bath list comprehensions
`[safe_float(c.get(k1) or c.get(k2), 0.0) for c in valid_comps]`: the first
malformed field raises, otherwise the parse always yields a float (the
default is `0.0`), so the result is the list of those floats. -/
def mapFloats (f : CompDict → PyVal) : List CompDict → Except PyErr (List ℚ)
  | [] => .ok []
  | c :: rest =>
    match safe_float (f c) (some 0) with
    | .error e => .error e
    | .ok v =>
      match mapFloats f rest with
      | .error e => .error e
      | .ok tail => .ok (v.getD 0 :: tail)

/-- Lines 113–175 of `estimate_arv_and_profit`: everything after validation
and filtering succeeded, given the extracted subject fields `s`, the PPSF
samples, and the two bed/bath lists over `valid_comps`.  By the time this
runs, `s.sqft` is some non-zero value and `s.price` is not `None`, so the
Python floats `s_sqft` / `list_price` are `getD 0` of those options. -/
def buildRow (s : SubjectFields) (ppsf_vals comp_beds comp_baths : List ℚ)
    (cfg : AppConfig) : ArvRow :=
  let med_ppsf := median ppsf_vals
  let arv_base := pyOrZero med_ppsf * s.sqft.getD 0
  let adj := cfg.arv_config.adjustments
  let s_beds := pyOrZero s.beds
  let s_baths := pyOrZero s.baths
  let deltas :=
    if comp_beds ≠ [] ∧ comp_baths ≠ [] then
      let mean_beds := comp_beds.sum / (comp_beds.length : ℚ)
      let mean_baths := comp_baths.sum / (comp_baths.length : ℚ)
      ((s_beds - mean_beds) * adj.bed_step_pct, (s_baths - mean_baths) * adj.bath_step_pct)
    else (0, 0)
  let adj_multiplier := 1 + deltas.1 + deltas.2
  let arv_estimate := max 0 (arv_base * adj_multiplier)
  let conf := _confidence_from_ppsf ppsf_vals cfg.arv_config.min_comps
  let list_to_arv_pct := if 0 < arv_estimate then s.price.getD 0 / arv_estimate else 0
  let profits :=
    if cfg.profit_config.rehab_budget ≠ Option.none ∧ s.price ≠ Option.none then
      let pc := cfg.profit_config
      let lp := s.price.getD 0
      let arv_conservative := arv_estimate * (1 - pc.moe_pct_conservative)
      let arv_median := arv_estimate
      let arv_optimistic := arv_estimate * (1 - pc.moe_pct_optimistic)
      let total_costs := lp + pc.rehab_budget.getD 0 + pc.closing_costs_pct * lp +
        pc.selling_costs_pct * arv_median + pc.misc_buffer_pct * arv_median
      (some (arv_conservative - total_costs), some (arv_median - total_costs),
       some (arv_optimistic - total_costs))
    else (Option.none, Option.none, Option.none)
  { arv_estimate := if arv_estimate = 0 then 0 else pyRound arv_estimate 2,
    arv_ppsf := if optTruthy med_ppsf = false then 0 else pyRound (med_ppsf.getD 0) 2,
    comp_count := ppsf_vals.length,
    arv_confidence := pyRound conf 3,
    list_to_arv_pct := pyRound list_to_arv_pct 4,
    profit_conservative := profits.1.map (fun q => pyRound q 2),
    profit_median := profits.2.1.map (fun q => pyRound q 2),
    profit_optimistic := profits.2.2.map (fun q => pyRound q 2) }

/-- src/re_agent/arv.py `estimate_arv_and_profit` (the Python returns the
pair `(row, None)`; the constant second component is dropped). -/
def estimate_arv_and_profit (subject : SubjectDict) (comps_payload : CompsPayload)
    (cfg : AppConfig) : Except PyErr ArvRow :=
  match _extract_subject_fields subject with
  | .error e => .error e
  | .ok s =>
    if optTruthy s.sqft = false then
      .error (PyErr.missingField "Subject is missing sqft; cannot compute ARV")
    else if s.price = Option.none then
      .error (PyErr.missingField "Subject is missing list price; cannot compute deal ratio")
    else
      let comps := payloadComps comps_payload
      match _filter_and_ppsf comps subject cfg with
      | .error e => .error e
      | .ok ppsf_vals =>
        if ppsf_vals = [] then
          .error (PyErr.noComps "No valid comps after filtering and fallback")
        else
          let valid_comps := comps.filter (fun c => c.price.truthy && c.sqft.truthy)
          match mapFloats (fun c => pyOr c.bedrooms c.beds) valid_comps with
          | .error e => .error e
          | .ok comp_beds =>
            match mapFloats (fun c => pyOr c.bathrooms c.baths) valid_comps with
            | .error e => .error e
            | .ok comp_baths => .ok (buildRow s ppsf_vals comp_beds comp_baths cfg)

/-! ### Cache and rate limiter (src/re_agent/cache.py) -/

/-- The `raw` table: `(property_id, endpoint) → (payload_json, ts)`, the
primary key making one row per pair.  `json.dumps`/`json.loads` round-trip
is the identity on the payloads stored, so the payload string is kept as
is. -/
def RawStore := String × String → Option (String × ℤ)

/-- An empty cache database. -/
def emptyRawStore : RawStore := fun _ => Option.none

/-- src/re_agent/cache.py `set_cached`: `REPLACE INTO raw` — last write
wins for the `(key, endpoint)` primary key, stamped with the current time
`now` (seconds). -/
def set_cached (st : RawStore) (endpoint key payload : String) (now : ℤ) : RawStore :=
  fun pk => if pk = (key, endpoint) then some (payload, now) else st pk

/-- src/re_agent/cache.py `get_cached`: selects the row for
`(key, endpoint)` with `ts > now − ttl_hours·3600` (strict). -/
def get_cached (st : RawStore) (endpoint key : String) (ttl_hours now : ℤ) : Option String :=
  match st (key, endpoint) with
  | Option.none => Option.none
  | some pe => if now - ttl_hours * 3600 < pe.2 then some pe.1 else Option.none

/-- The `rate_limits` table: `day → count`. -/
def RLStore := String → Option ℤ

/-- src/re_agent/cache.py `rate_limit_check_and_increment`, with the
current UTC day string made an explicit argument.  Missing row means
count 0; at or above the limit it returns `False` without writing;
otherwise it writes `count + 1` and returns `True`. -/
def rate_limit_check_and_increment (st : RLStore) (day : String) (limit_per_day : ℤ) :
    Bool × RLStore :=
  let current := (st day).getD 0
  if limit_per_day ≤ current then (false, st)
  else (true, fun d => if d = day then some (current + 1) else st d)

/-- `k` consecutive calls on the same `day`, starting from an empty
`rate_limits` table. -/
def rlIter (day : String) (limit : ℤ) : ℕ → RLStore
  | 0 => fun _ => Option.none
  | Nat.succ k => (rate_limit_check_and_increment (rlIter day limit k) day limit).2

/-!
Rational arithmetic in Batteries is `@[irreducible]`; the concrete claim
evaluations below go through the kernel, so those definitions are unsealed
for this development.
-/
unseal Rat.mul Rat.inv Rat.add Rat.sub

instance {ε α : Type} [DecidableEq ε] [DecidableEq α] : DecidableEq (Except ε α) := fun x y =>
  match x, y with
  | .error a, .error b => if h : a = b then .isTrue (by simp [h]) else .isFalse (by simp [h])
  | .error _, .ok _ => .isFalse (by simp)
  | .ok _, .error _ => .isFalse (by simp)
  | .ok a, .ok b => if h : a = b then .isTrue (by simp [h]) else .isFalse (by simp [h])

/-! ### Concrete inputs used by the claim theorems -/

/-- The configuration with every field at its pydantic default. -/
def cfgDefault : AppConfig := {}

/-- A minimal well-formed comparable with the given price and square
footage. -/
def compOf (p sq : ℚ) : CompDict := { price := PyVal.num p, sqft := PyVal.num sq }

/-- C1: subject with a declared home type, 3 beds, 1000 sqft, listed at
100000. -/
def subjC1 : SubjectDict :=
  { sqft := PyVal.num 1000, price := PyVal.num 100000,
    homeType := PyVal.str "House" Option.none, bedrooms := PyVal.num 3 }

/-- C1: a comp matching the subject's home type (3 beds). -/
def compC1a : CompDict :=
  { price := PyVal.num 100000, sqft := PyVal.num 1000,
    homeType := PyVal.str "House" Option.none, bedrooms := PyVal.num 3 }

/-- C1: a comp of a different home type (5 beds) — dropped by the PPSF
filter but still counted by the bed/bath mean. -/
def compC1b : CompDict :=
  { price := PyVal.num 100000, sqft := PyVal.num 1000,
    homeType := PyVal.str "Condo" Option.none, bedrooms := PyVal.num 5 }

/-- C1 payload. -/
def payloadC1 : CompsPayload := { comps := some [compC1a, compC1b] }

/-- C1: the row the code produces — `arv_estimate = 96000` shows the bed
mean `(3+5)/2 = 4` included the filtered-out comp. -/
def rowC1 : ArvRow :=
  { arv_estimate := 96000, arv_ppsf := 100, comp_count := 1,
    arv_confidence := 583/1000, list_to_arv_pct := 10417/10000,
    profit_conservative := Option.none, profit_median := Option.none,
    profit_optimistic := Option.none }

/-- C3: a subject with no fields at all (extraction succeeds, all `None`). -/
def subjC3 : SubjectDict := {}

/-- C3: a candidate whose price field is a non-numeric string. -/
def compC3 : CompDict := { price := PyVal.str "n/a" Option.none, sqft := PyVal.num 1000 }

/-- C4 counterexample: subject declaring a home type. -/
def subjC4 : SubjectDict :=
  { livingArea := PyVal.num 1000, homeType := PyVal.str "House" Option.none }

/-- C4 counterexample: valid comp with no home type of its own. -/
def compC4 : CompDict := { price := PyVal.num 100000, livingArea := PyVal.num 1000 }

/-- C4 witness: subject declaring home type `"House"`. -/
def subjC4w : SubjectDict :=
  { livingArea := PyVal.num 1000, homeType := PyVal.str "House" Option.none }

/-- C4 witness: comp declaring home type `"hOuSe"` (same up to case). -/
def compC4w : CompDict :=
  { price := PyVal.num 100000, livingArea := PyVal.num 1000,
    homeType := PyVal.str "hOuSe" Option.none }

/-- The extracted fields of `subjC4w`. -/
def sFieldsC4w : SubjectFields :=
  { price := Option.none, beds := Option.none, baths := Option.none,
    sqft := some 1000, lot_sqft := Option.none,
    home_type := PyVal.str "House" Option.none, year_built := Option.none }

/-- C5 counterexample: subject whose sqft is present but equal to 0 (in
the `sqft` key — a 0 in `livingArea` would be swallowed by the `or`
fallback). -/
def subjC5 : SubjectDict := { sqft := PyVal.num 0, price := PyVal.num 100000 }

/-- C5 counterexample payload: one comp that does produce a PPSF sample. -/
def payloadC5 : CompsPayload := { comps := some [compOf 100000 1000] }

/-- C5 witness: well-formed subject. -/
def subjC5w : SubjectDict := { livingArea := PyVal.num 1000, price := PyVal.num 100000 }

/-- C5 witness payload. -/
def payloadC5w : CompsPayload := { comps := some [compOf 100000 1000] }

/-- The extracted fields of `subjC5w`. -/
def sFieldsC5w : SubjectFields :=
  { price := some 100000, beds := Option.none, baths := Option.none,
    sqft := some 1000, lot_sqft := Option.none, home_type := PyVal.none,
    year_built := Option.none }

/-- C9: subject sqft 1000, list price 100000 (the spec's worked example). -/
def subjC9 : SubjectDict := { livingArea := PyVal.num 1000, price := PyVal.num 100000 }

/-- C9: comps with PPSF samples 100, 110, 120. -/
def payloadC9 : CompsPayload :=
  { comps := some [compOf 100000 1000, compOf 110000 1000, compOf 120000 1000] }

/-- C9: default config with a 20000 rehab budget. -/
def cfgC9 : AppConfig := { profit_config := { rehab_budget := some 20000 } }

/-- C9: the row for `subjC9`/`payloadC9` under `cfgC9` (ARV 110000,
total costs 131800). -/
def rowC9 : ArvRow :=
  { arv_estimate := 110000, arv_ppsf := 110, comp_count := 3,
    arv_confidence := 3/4, list_to_arv_pct := 9091/10000,
    profit_conservative := some (-32800), profit_median := some (-21800),
    profit_optimistic := some (-25100) }

/-- C9 witness: same input under the default config (no rehab budget). -/
def rowC9d : ArvRow :=
  { arv_estimate := 110000, arv_ppsf := 110, comp_count := 3,
    arv_confidence := 3/4, list_to_arv_pct := 9091/10000,
    profit_conservative := Option.none, profit_median := Option.none,
    profit_optimistic := Option.none }

/-- C10 witness: subject with sqft 1000 and a list price of exactly 0,
supplied through the `listPrice` key (which the `or` fallback does reach,
so it extracts to `some 0`). -/
def subjC10 : SubjectDict := { livingArea := PyVal.num 1000, listPrice := PyVal.num 0 }

/-- C10 counterexample: the same zero list price supplied through the
primary `price` key — `price or listPrice` collapses the falsy 0 to
`None`, so extraction yields an absent price. -/
def subjC10c : SubjectDict := { livingArea := PyVal.num 1000, price := PyVal.num 0 }

/-- C10 witness payload. -/
def payloadC10 : CompsPayload := { comps := some [compOf 100000 1000] }

/-- The extracted fields of `subjC10`. -/
def sFieldsC10 : SubjectFields :=
  { price := some 0, beds := Option.none, baths := Option.none,
    sqft := some 1000, lot_sqft := Option.none, home_type := PyVal.none,
    year_built := Option.none }

/-! ### Helper lemmas -/

theorem clamp01_nonneg (x : ℚ) : 0 ≤ clamp01 x := le_max_left 0 _

theorem clamp01_le_one (x : ℚ) : clamp01 x ≤ 1 := max_le zero_le_one (min_le_left 1 x)

/-! ### Claim theorems -/

/-- C2 (counterexample): on `[1,2,3,4,5,6,7,8]` the implemented IQR is
`3.5`, not the claimed `4.5`. -/
theorem C2_counterexample :
    iqr [1, 2, 3, 4, 5, 6, 7, 8] = 7/2 ∧ iqr [1, 2, 3, 4, 5, 6, 7, 8] ≠ 9/2 := by
  decide

/-- C2 (amended): `iqr` returns exactly 0 on any list of fewer than 4
samples; on `[1,2,3,4,5,6,7,8]` the linear-interpolation order statistics
give Q1 = 2.75 and Q3 = 6.25, so the IQR is 3.5. -/
theorem C2_iqr :
    (∀ values : List ℚ, values.length < 4 → iqr values = 0) ∧
    percentileOf [1, 2, 3, 4, 5, 6, 7, 8] (1/4) = 11/4 ∧
    percentileOf [1, 2, 3, 4, 5, 6, 7, 8] (3/4) = 25/4 ∧
    iqr [1, 2, 3, 4, 5, 6, 7, 8] = 7/2 := by
  refine ⟨fun values h => ?_, by decide, by decide, by decide⟩
  simp [iqr, List.length_insertionSort, h]

/-- C2 (witness): a concrete 3-sample list has IQR 0. -/
theorem C2_iqr_witness : iqr [5, 1, 9] = 0 :=
  C2_iqr.1 [5, 1, 9] (by decide)

/-- C3: the filter propagates `ValueError` out of `float()` on a candidate
whose price is a non-numeric string — it does not silently drop the bad
candidate. -/
theorem C3_filter_raises :
    _filter_and_ppsf [compC3] subjC3 cfgDefault = .error PyErr.valueError := by
  decide

/-- C6 (counterexample): at `min_comps = -1` with samples `[1,1,1,1]` the
code returns 1 (its `n_score` denominator is `max(2·min_comps, 1) = 1`)
while the claimed formula `count / (2·min_comps)` gives 1/2. -/
theorem C6_counterexample :
    _confidence_from_ppsf [1, 1, 1, 1] (-1) = 1 ∧
    confidence_spec [1, 1, 1, 1] (-1) = 1/2 ∧
    _confidence_from_ppsf [1, 1, 1, 1] (-1) ≠ confidence_spec [1, 1, 1, 1] (-1) := by
  decide

/-- C6 (amended): confidence is always in `[0,1]`; it is 0 on the empty
list and whenever the median of the samples is ≤ 0; and whenever
`min_comps ≥ 1` it equals the claimed formula
`clamp01(0.5·clamp01(count/(2·min_comps)) + 0.5·1/(1 + IQR/median))`
(in general the code's `n_score` denominator is `max(2·min_comps, 1)`). -/
theorem C6_confidence (vals : List ℚ) (m : ℤ) :
    0 ≤ _confidence_from_ppsf vals m ∧ _confidence_from_ppsf vals m ≤ 1 ∧
    _confidence_from_ppsf [] m = 0 ∧
    (∀ med, median vals = some med → med ≤ 0 → _confidence_from_ppsf vals m = 0) ∧
    (1 ≤ m → _confidence_from_ppsf vals m = confidence_spec vals m) := by
  have hbounds : 0 ≤ _confidence_from_ppsf vals m ∧ _confidence_from_ppsf vals m ≤ 1 := by
    unfold _confidence_from_ppsf
    by_cases h : vals = []
    · simp [h]
    · cases hm : median vals with
      | none => simp [h, hm]
      | some med =>
        by_cases hle : med ≤ 0
        · simp [h, hm, hle]
        · simp [h, hm, hle, clamp01_nonneg, clamp01_le_one]
  refine ⟨hbounds.1, hbounds.2, by simp [_confidence_from_ppsf], ?_, ?_⟩
  · intro med hm hle
    unfold _confidence_from_ppsf
    by_cases h : vals = []
    · simp [h]
    · simp [h, hm, hle]
  · intro hm1
    have hmax : max (m * 2) 1 = 2 * m := by
      rw [max_eq_left (by omega)]; ring
    unfold _confidence_from_ppsf confidence_spec
    rw [hmax]

/-- C6 (witness): concrete instance of the amended claim at samples
`[2, 3]` and `min_comps = 3`. -/
theorem C6_confidence_witness :
    _confidence_from_ppsf [2, 3] 3 = 0 ∨
    _confidence_from_ppsf [2, 3] 3 = confidence_spec [2, 3] 3 :=
  Or.inr ((C6_confidence [2, 3] 3).2.2.2.2 (by decide))

/-- C8 (counterexample): at age exactly equal to the TTL
(`now − write_timestamp = 24·3600`) the claimed eligibility condition
`now − write_timestamp ≤ TTL` holds, yet the read misses. -/
theorem C8_counterexample :
    get_cached (set_cached emptyRawStore "endpoint" "k" "payload" 0) "endpoint" "k" 24 86400 =
      Option.none ∧
    (86400 : ℤ) - 0 ≤ 24 * 3600 := by
  decide

/-- C8 (amended): writing a payload and reading it back with age strictly
below the TTL returns exactly the payload written; a read at age ≥ TTL
returns absent, which is also what a never-written key returns — the
eligibility condition is `now − write_timestamp < ttl_hours·3600`
(strict). -/
theorem C8_cache_ttl (st : RawStore) (endpoint key payload : String) (t_w now ttl : ℤ) :
    (now - t_w < ttl * 3600 →
      get_cached (set_cached st endpoint key payload t_w) endpoint key ttl now = some payload) ∧
    (ttl * 3600 ≤ now - t_w →
      get_cached (set_cached st endpoint key payload t_w) endpoint key ttl now = Option.none) ∧
    get_cached emptyRawStore endpoint key ttl now = Option.none := by
  refine ⟨fun h => ?_, fun h => ?_, by simp [get_cached, emptyRawStore]⟩
  · unfold get_cached set_cached
    rw [if_pos rfl]
    show (if now - ttl * 3600 < t_w then some payload else (Option.none : Option String)) =
      some payload
    rw [if_pos (by omega)]
  · unfold get_cached set_cached
    rw [if_pos rfl]
    show (if now - ttl * 3600 < t_w then some payload else (Option.none : Option String)) =
      Option.none
    rw [if_neg (by omega)]

/-- C8 (witness): concrete round-trip one hour into a 24-hour TTL, and a
miss at exactly 24 hours. -/
theorem C8_cache_ttl_witness :
    get_cached (set_cached emptyRawStore "props" "k1" "pay" 100) "props" "k1" 24 3700 =
      some "pay" ∧
    get_cached (set_cached emptyRawStore "props" "k1" "pay" 100) "props" "k1" 24 (100 + 86400) =
      Option.none :=
  ⟨(C8_cache_ttl emptyRawStore "props" "k1" "pay" 100 3700 24).1 (by decide),
   (C8_cache_ttl emptyRawStore "props" "k1" "pay" 100 (100 + 86400) 24).2.1 (by decide)⟩

/-- After `k ≤ L` same-day calls from an empty table, the stored row for
`day` holds exactly `k` (no row at all for `k = 0`). -/
theorem rlIter_day_eq (day : String) (L : ℤ) :
    ∀ k : ℕ, (k : ℤ) ≤ L →
      (rlIter day L k) day = if k = 0 then Option.none else some (k : ℤ) := by
  intro k
  induction k with
  | zero => intro _; rfl
  | succ n ih =>
    intro hk
    have hn : (n : ℤ) ≤ L := by push_cast at hk ⊢; omega
    have hlt : (n : ℤ) < L := by push_cast at hk; omega
    have hcur : ((rlIter day L n) day).getD 0 = (n : ℤ) := by
      rw [ih hn]
      by_cases h0 : n = 0 <;> simp [h0]
    simp only [rlIter, rate_limit_check_and_increment]
    rw [hcur, if_neg (by omega)]
    simp

/-- The stored count for `day` never exceeds a non-negative limit `L`. -/
theorem rlIter_le (day : String) (L : ℤ) (hL : 0 ≤ L) :
    ∀ k : ℕ, ((rlIter day L k) day).getD 0 ≤ L := by
  intro k
  induction k with
  | zero => simpa [rlIter] using hL
  | succ n ih =>
    simp only [rlIter, rate_limit_check_and_increment]
    by_cases h : L ≤ ((rlIter day L n) day).getD 0
    · rw [if_pos h]; exact ih
    · rw [if_neg h]; simp; omega

/-- C7: starting from no counter, the first `daily_limit` same-day calls
all return allowed; after exactly `daily_limit` of them the stored count is
`daily_limit`, and the next call returns `false` leaving the store
untouched.  In general a call that sees a count ≥ the limit returns
`false` without mutating anything, and the day's counter never exceeds the
quota. -/
theorem C7_rate_limiter (limit : ℕ) (day : String) :
    (∀ k : ℕ, k < limit →
      (rate_limit_check_and_increment (rlIter day limit k) day limit).1 = true) ∧
    ((rlIter day limit limit) day).getD 0 = (limit : ℤ) ∧
    rate_limit_check_and_increment (rlIter day limit limit) day limit =
      (false, rlIter day limit limit) ∧
    (∀ st : RLStore, (limit : ℤ) ≤ (st day).getD 0 →
      rate_limit_check_and_increment st day limit = (false, st)) ∧
    (∀ k : ℕ, ((rlIter day limit k) day).getD 0 ≤ (limit : ℤ)) := by
  have hcount : ∀ k : ℕ, (k : ℤ) ≤ (limit : ℤ) →
      ((rlIter day limit k) day).getD 0 = (k : ℤ) := by
    intro k hk
    rw [rlIter_day_eq day limit k hk]
    by_cases h0 : k = 0 <;> simp [h0]
  refine ⟨?_, ?_, ?_, ?_, ?_⟩
  · intro k hk
    simp only [rate_limit_check_and_increment]
    rw [hcount k (by omega), if_neg (by omega)]
  · exact hcount limit le_rfl
  · simp only [rate_limit_check_and_increment]
    rw [hcount limit le_rfl, if_pos le_rfl]
  · intro st hst
    simp only [rate_limit_check_and_increment]
    rw [if_pos hst]
  · exact rlIter_le day limit (by positivity)

/-- C7 (witness): with a daily limit of 2 the first call is allowed, after
two calls the stored count is 2, and the third call is refused without
changing the store. -/
theorem C7_rate_limiter_witness :
    (rate_limit_check_and_increment (rlIter "2026-10-12" ((2 : ℕ) : ℤ) 0) "2026-10-12"
      ((2 : ℕ) : ℤ)).1 = true ∧
    ((rlIter "2026-10-12" ((2 : ℕ) : ℤ) 2) "2026-10-12").getD 0 = ((2 : ℕ) : ℤ) ∧
    rate_limit_check_and_increment (rlIter "2026-10-12" ((2 : ℕ) : ℤ) 2) "2026-10-12"
      ((2 : ℕ) : ℤ) = (false, rlIter "2026-10-12" ((2 : ℕ) : ℤ) 2) :=
  ⟨(C7_rate_limiter 2 "2026-10-12").1 0 (by decide),
   (C7_rate_limiter 2 "2026-10-12").2.1,
   (C7_rate_limiter 2 "2026-10-12").2.2.1⟩

/-- Every sample an error-free filter run produces comes from one of the
input candidates, on which the per-candidate filter body succeeded with
exactly that sample. -/
theorem filterLoop_mem (s_sqft : ℚ) (sht : PyVal) (s_lot cap : ℚ) :
    ∀ (comps : List CompDict) (l : List ℚ),
      filterLoop s_sqft sht s_lot cap comps = .ok l →
      ∀ x ∈ l, ∃ c ∈ comps, compPpsf s_sqft sht s_lot cap c = .ok (some x) := by
  intro comps
  induction comps with
  | nil =>
    intro l h x hx
    simp only [filterLoop] at h
    cases h
    simp at hx
  | cons c rest ih =>
    intro l h x hx
    simp only [filterLoop] at h
    cases hc : compPpsf s_sqft sht s_lot cap c with
    | error e => simp [hc] at h
    | ok r =>
      cases hrest : filterLoop s_sqft sht s_lot cap rest with
      | error e => simp [hc, hrest] at h
      | ok tail =>
        cases r with
        | none =>
          simp only [hc, hrest] at h
          cases h
          obtain ⟨cc, hcc, hp⟩ := ih _ hrest x hx
          exact ⟨cc, List.mem_cons_of_mem c hcc, hp⟩
        | some v =>
          simp only [hc, hrest] at h
          cases h
          rcases List.mem_cons.1 hx with hxv | hxtail
          · exact ⟨c, List.mem_cons_self c rest, by rw [hxv]; exact hc⟩
          · obtain ⟨cc, hcc, hp⟩ := ih _ hrest x hxtail
            exact ⟨cc, List.mem_cons_of_mem c hcc, hp⟩

/-- If the filter body emitted a sample for a candidate while the subject
declares a (truthy) home type and the candidate has a truthy home type of
its own, the two home types agree after lowercasing. -/
theorem compPpsf_ok_home (s_sqft : ℚ) (sht : PyVal) (s_lot cap : ℚ) (c : CompDict) (x : ℚ)
    (h : compPpsf s_sqft sht s_lot cap c = .ok (some x)) :
    sht.truthy = true → (pyOr c.homeType c.home_type).truthy = true →
    pyStrLower (pyOr c.homeType c.home_type) = pyStrLower sht := by
  intro h1 h2
  unfold compPpsf at h
  cases hp : safe_float (pyOr (pyOr c.price c.soldPrice) c.sale_price) Option.none with
  | error e => rw [hp] at h; simp at h
  | ok price =>
  cases hsq : safe_float (pyOr (pyOr c.livingArea c.sqft) c.living_area) Option.none with
  | error e => rw [hp, hsq] at h; simp at h
  | ok sqft =>
  cases hl : safe_float (pyOr (pyOr c.lotAreaValue c.lotSize) c.lot_area) Option.none with
  | error e => rw [hp, hsq, hl] at h; simp at h
  | ok lot =>
  simp only [hp, hsq, hl] at h
  split at h
  · simp at h
  · split at h
    · simp at h
    · split at h
      · simp at h
      · split at h
        · simp at h
        · rename_i hskip hhome hrange hlot
          by_contra hne
          exact hhome ⟨h1, h2, hne⟩

/-- C4 (counterexample): `subjC4` declares a home type, yet the sample 100
is produced from `compC4`, whose own home type is absent (`None`) and so
matches nothing case-insensitively. -/
theorem C4_counterexample :
    (_extract_subject_fields subjC4).map (fun s => s.home_type.truthy) = .ok true ∧
    _filter_and_ppsf [compC4] subjC4 cfgDefault = .ok [100] ∧
    pyOr compC4.homeType compC4.home_type = PyVal.none := by
  decide

/-- C4 (amended): every PPSF sample comes from a candidate on which the
full filter body succeeded; in particular, when the subject declares a
home type, any candidate that itself declares one matches it
case-insensitively — but candidates with no home type of their own are
admitted as well. -/
theorem C4_samples_from_filter (subject : SubjectDict) (cfg : AppConfig)
    (comps : List CompDict) (l : List ℚ) (s : SubjectFields)
    (hs : _extract_subject_fields subject = .ok s)
    (hf : _filter_and_ppsf comps subject cfg = .ok l) :
    ∀ x ∈ l, ∃ c ∈ comps,
      compPpsf (pyOrZero s.sqft) s.home_type (pyOrZero s.lot_sqft)
        cfg.arv_config.adjustments.lot_size_cap_ratio c = .ok (some x) ∧
      (s.home_type.truthy = true → (pyOr c.homeType c.home_type).truthy = true →
        pyStrLower (pyOr c.homeType c.home_type) = pyStrLower s.home_type) := by
  intro x hx
  have hloop : filterLoop (pyOrZero s.sqft) s.home_type (pyOrZero s.lot_sqft)
      cfg.arv_config.adjustments.lot_size_cap_ratio comps = .ok l := by
    unfold _filter_and_ppsf at hf
    rw [hs] at hf
    exact hf
  obtain ⟨c, hc, hp⟩ := filterLoop_mem _ _ _ _ comps l hloop x hx
  exact ⟨c, hc, hp, compPpsf_ok_home _ _ _ _ c x hp⟩

/-- C4 (witness): the sample 100 produced for `subjC4w` (home type
`"House"`) comes from `compC4w`, whose home type `"hOuSe"` matches
case-insensitively. -/
theorem C4_samples_from_filter_witness :
    ∃ c ∈ [compC4w],
      compPpsf (pyOrZero sFieldsC4w.sqft) sFieldsC4w.home_type (pyOrZero sFieldsC4w.lot_sqft)
        cfgDefault.arv_config.adjustments.lot_size_cap_ratio c = .ok (some 100) ∧
      (sFieldsC4w.home_type.truthy = true → (pyOr c.homeType c.home_type).truthy = true →
        pyStrLower (pyOr c.homeType c.home_type) = pyStrLower sFieldsC4w.home_type) :=
  C4_samples_from_filter subjC4w cfgDefault [compC4w] [100] sFieldsC4w (by decide) (by decide)
    100 (by decide)

/-- Validation failure: extracted sqft falsy (absent or 0) raises
`MissingFieldError`. -/
theorem estimate_sqft_missing (subject : SubjectDict) (p : CompsPayload) (cfg : AppConfig)
    (s : SubjectFields) (hs : _extract_subject_fields subject = .ok s)
    (h2 : optTruthy s.sqft = false) :
    estimate_arv_and_profit subject p cfg =
      .error (PyErr.missingField "Subject is missing sqft; cannot compute ARV") := by
  simp [estimate_arv_and_profit, hs, h2]

/-- Validation failure: extracted list price `None` raises
`MissingFieldError`. -/
theorem estimate_price_missing (subject : SubjectDict) (p : CompsPayload) (cfg : AppConfig)
    (s : SubjectFields) (hs : _extract_subject_fields subject = .ok s)
    (h2 : optTruthy s.sqft = true) (h3 : s.price = Option.none) :
    estimate_arv_and_profit subject p cfg =
      .error (PyErr.missingField "Subject is missing list price; cannot compute deal ratio") := by
  simp [estimate_arv_and_profit, hs, h2, h3]

/-- An empty filtered sample list raises `NoCompsError`. -/
theorem estimate_no_comps (subject : SubjectDict) (p : CompsPayload) (cfg : AppConfig)
    (s : SubjectFields) (hs : _extract_subject_fields subject = .ok s)
    (h2 : optTruthy s.sqft = true) (h3 : s.price ≠ Option.none)
    (h4 : _filter_and_ppsf (payloadComps p) subject cfg = .ok []) :
    estimate_arv_and_profit subject p cfg =
      .error (PyErr.noComps "No valid comps after filtering and fallback") := by
  simp [estimate_arv_and_profit, hs, h2, h3, h4]

/-- When validation, filtering and the bed/bath parses all succeed, the
function returns the row built from those pieces. -/
theorem estimate_eq_ok (subject : SubjectDict) (p : CompsPayload) (cfg : AppConfig)
    (s : SubjectFields) (l bl tl : List ℚ)
    (hs : _extract_subject_fields subject = .ok s)
    (h2 : optTruthy s.sqft = true) (h3 : s.price ≠ Option.none)
    (h4 : _filter_and_ppsf (payloadComps p) subject cfg = .ok l) (h5 : l ≠ [])
    (h6 : mapFloats (fun c => pyOr c.bedrooms c.beds)
      ((payloadComps p).filter (fun c => c.price.truthy && c.sqft.truthy)) = .ok bl)
    (h7 : mapFloats (fun c => pyOr c.bathrooms c.baths)
      ((payloadComps p).filter (fun c => c.price.truthy && c.sqft.truthy)) = .ok tl) :
    estimate_arv_and_profit subject p cfg = .ok (buildRow s l bl tl cfg) := by
  simp [estimate_arv_and_profit, hs, h2, h3, h4, h5, h6, h7]

/-- If every element of a list parses, the bed/bath comprehension
succeeds. -/
theorem mapFloats_total (f : CompDict → PyVal) :
    ∀ l : List CompDict, (∀ c ∈ l, ∃ v, safe_float (f c) (some 0) = .ok v) →
      ∃ out, mapFloats f l = .ok out := by
  intro l
  induction l with
  | nil => intro _; exact ⟨[], rfl⟩
  | cons c rest ih =>
    intro h
    obtain ⟨v, hv⟩ := h c (List.mem_cons_self c rest)
    obtain ⟨out, hout⟩ := ih (fun cc hcc => h cc (List.mem_cons_of_mem c hcc))
    exact ⟨v.getD 0 :: out, by simp [mapFloats, hv, hout]⟩

/-- The output's `comp_count` is the number of PPSF samples. -/
theorem buildRow_comp_count (s : SubjectFields) (l bl tl : List ℚ) (cfg : AppConfig) :
    (buildRow s l bl tl cfg).comp_count = l.length := rfl

/-- With no rehab budget configured, all three profit fields are `None`. -/
theorem buildRow_profit_none (s : SubjectFields) (l bl tl : List ℚ) (cfg : AppConfig)
    (h : cfg.profit_config.rehab_budget = Option.none) :
    (buildRow s l bl tl cfg).profit_conservative = Option.none ∧
    (buildRow s l bl tl cfg).profit_median = Option.none ∧
    (buildRow s l bl tl cfg).profit_optimistic = Option.none := by
  simp [buildRow, h]

/-- `round(0, n) = 0`. -/
theorem pyRound_zero (n : ℕ) : pyRound 0 n = 0 := by
  norm_num [pyRound, pyRoundInt]

/-- With a list price of exactly 0, the deal ratio in the output row is
0 (either `0 / ARV` or the defined-zero branch). -/
theorem buildRow_ratio_zero (s : SubjectFields) (l bl tl : List ℚ) (cfg : AppConfig)
    (h : s.price = some 0) :
    (buildRow s l bl tl cfg).list_to_arv_pct = 0 := by
  simp only [buildRow, h]
  split
  · simp [pyRound_zero]
  · simp [pyRound_zero]

/-- Every `.ok` result of `estimate_arv_and_profit` is a row built by
`buildRow` from the subject's extracted fields. -/
theorem estimate_ok_shape (subject : SubjectDict) (p : CompsPayload) (cfg : AppConfig)
    (row : ArvRow) (h : estimate_arv_and_profit subject p cfg = .ok row) :
    ∃ s l bl tl, _extract_subject_fields subject = .ok s ∧
      row = buildRow s l bl tl cfg := by
  cases hs : _extract_subject_fields subject with
  | error e => simp [estimate_arv_and_profit, hs] at h
  | ok s =>
    by_cases h2 : optTruthy s.sqft = false
    · rw [estimate_sqft_missing subject p cfg s hs h2] at h
      exact Except.noConfusion h
    · have h2t : optTruthy s.sqft = true := by simpa using h2
      by_cases h3 : s.price = Option.none
      · rw [estimate_price_missing subject p cfg s hs h2t h3] at h
        exact Except.noConfusion h
      · cases h4 : _filter_and_ppsf (payloadComps p) subject cfg with
        | error e =>
          have heq : estimate_arv_and_profit subject p cfg = .error e := by
            simp [estimate_arv_and_profit, hs, h2t, h3, h4]
          rw [heq] at h
          exact Except.noConfusion h
        | ok l =>
          by_cases h5 : l = []
          · subst h5
            rw [estimate_no_comps subject p cfg s hs h2t h3 h4] at h
            exact Except.noConfusion h
          · cases h6 : mapFloats (fun c => pyOr c.bedrooms c.beds)
                ((payloadComps p).filter (fun c => c.price.truthy && c.sqft.truthy)) with
            | error e =>
              have heq : estimate_arv_and_profit subject p cfg = .error e := by
                simp [estimate_arv_and_profit, hs, h2t, h3, h4, h5, h6]
              rw [heq] at h
              exact Except.noConfusion h
            | ok bl =>
              cases h7 : mapFloats (fun c => pyOr c.bathrooms c.baths)
                  ((payloadComps p).filter (fun c => c.price.truthy && c.sqft.truthy)) with
              | error e =>
                have heq : estimate_arv_and_profit subject p cfg = .error e := by
                  simp [estimate_arv_and_profit, hs, h2t, h3, h4, h5, h6, h7]
                rw [heq] at h
                exact Except.noConfusion h
              | ok tl =>
                rw [estimate_eq_ok subject p cfg s l bl tl hs h2t h3 h4 h5 h6 h7] at h
                simp only [Except.ok.injEq] at h
                exact ⟨s, l, bl, tl, rfl, h.symm⟩

/-- C5 (counterexample): `subjC5` has sqft present and equal to 0 (not
absent) and a present list price, and its comp produces the sample 100 —
yet the function raises `MissingFieldError` instead of returning a
result. -/
theorem C5_counterexample :
    (_extract_subject_fields subjC5).map (fun s => s.sqft) = .ok (some 0) ∧
    _filter_and_ppsf (payloadComps payloadC5) subjC5 cfgDefault = .ok [100] ∧
    estimate_arv_and_profit subjC5 payloadC5 cfgDefault =
      .error (PyErr.missingField "Subject is missing sqft; cannot compute ARV") := by
  decide

/-- C5 (amended): `estimate_arv_and_profit` raises `MissingFieldError`
when the extracted sqft is falsy (absent or zero) or, sqft being present,
when the list price is `None`; raises `NoCompsError` when the filtered
PPSF sample list is empty; and otherwise — the bed/bath fields of the
comps being parseable — returns a result whose comp count is the number of
samples, which is positive (no defaults substituted, no zero-comp
estimate). -/
theorem C5_fail_fast (subject : SubjectDict) (p : CompsPayload) (cfg : AppConfig)
    (s : SubjectFields) (hs : _extract_subject_fields subject = .ok s) :
    (optTruthy s.sqft = false →
      estimate_arv_and_profit subject p cfg =
        .error (PyErr.missingField "Subject is missing sqft; cannot compute ARV")) ∧
    (optTruthy s.sqft = true → s.price = Option.none →
      estimate_arv_and_profit subject p cfg =
        .error (PyErr.missingField "Subject is missing list price; cannot compute deal ratio")) ∧
    (optTruthy s.sqft = true → s.price ≠ Option.none →
      _filter_and_ppsf (payloadComps p) subject cfg = .ok [] →
      estimate_arv_and_profit subject p cfg =
        .error (PyErr.noComps "No valid comps after filtering and fallback")) ∧
    (∀ l : List ℚ, optTruthy s.sqft = true → s.price ≠ Option.none →
      _filter_and_ppsf (payloadComps p) subject cfg = .ok l → l ≠ [] →
      (∀ c ∈ payloadComps p, ∃ v, safe_float (pyOr c.bedrooms c.beds) (some 0) = .ok v) →
      (∀ c ∈ payloadComps p, ∃ v, safe_float (pyOr c.bathrooms c.baths) (some 0) = .ok v) →
      ∃ row, estimate_arv_and_profit subject p cfg = .ok row ∧
        row.comp_count = l.length ∧ 0 < row.comp_count) := by
  refine ⟨fun h2 => estimate_sqft_missing subject p cfg s hs h2,
    fun h2 h3 => estimate_price_missing subject p cfg s hs h2 h3,
    fun h2 h3 h4 => estimate_no_comps subject p cfg s hs h2 h3 h4,
    fun l h2 h3 h4 h5 hbeds hbaths => ?_⟩
  obtain ⟨bl, h6⟩ := mapFloats_total _ _ (fun c hc => hbeds c (List.mem_of_mem_filter hc))
  obtain ⟨tl, h7⟩ := mapFloats_total _ _ (fun c hc => hbaths c (List.mem_of_mem_filter hc))
  refine ⟨buildRow s l bl tl cfg,
    estimate_eq_ok subject p cfg s l bl tl hs h2 h3 h4 h5 h6 h7,
    buildRow_comp_count s l bl tl cfg, ?_⟩
  rw [buildRow_comp_count]
  exact List.length_pos.2 h5

/-- C5 (witness): a well-formed subject with one valid comp yields a
result with a positive comp count. -/
theorem C5_fail_fast_witness :
    ∃ row, estimate_arv_and_profit subjC5w payloadC5w cfgDefault = .ok row ∧
      row.comp_count = [(100 : ℚ)].length ∧ 0 < row.comp_count :=
  (C5_fail_fast subjC5w payloadC5w cfgDefault sFieldsC5w (by decide)).2.2.2 [100]
    (by decide) (by decide) (by decide) (by decide)
    (by
      intro c hc
      rw [show payloadComps payloadC5w = [compOf 100000 1000] from by decide] at hc
      simp at hc
      subst hc
      exact ⟨some 0, rfl⟩)
    (by
      intro c hc
      rw [show payloadComps payloadC5w = [compOf 100000 1000] from by decide] at hc
      simp at hc
      subst hc
      exact ⟨some 0, rfl⟩)

/-- C9: profit scenarios are all-or-nothing — with no configured rehab
budget every result row has all three profit fields `None`; with the
spec's worked numbers (ARV 110000, list price 100000, rehab 20000 and the
default percentages, so total costs 131800) the three profits are
−32800 / −21800 / −25100. -/
theorem C9_profit_scenarios :
    (∀ (subject : SubjectDict) (p : CompsPayload) (cfg : AppConfig) (row : ArvRow),
      cfg.profit_config.rehab_budget = Option.none →
      estimate_arv_and_profit subject p cfg = .ok row →
      row.profit_conservative = Option.none ∧ row.profit_median = Option.none ∧
        row.profit_optimistic = Option.none) ∧
    estimate_arv_and_profit subjC9 payloadC9 cfgC9 = .ok rowC9 := by
  constructor
  · intro subject p cfg row hr h
    obtain ⟨s, l, bl, tl, _, hrow⟩ := estimate_ok_shape subject p cfg row h
    rw [hrow]
    exact buildRow_profit_none s l bl tl cfg hr
  · decide

/-- C9 (witness): the same valuation under the default (rehab-less) config
returns a row whose three profit fields are `None`. -/
theorem C9_profit_scenarios_witness :
    estimate_arv_and_profit subjC9 payloadC9 cfgDefault = .ok rowC9d ∧
    rowC9d.profit_conservative = Option.none ∧ rowC9d.profit_median = Option.none ∧
      rowC9d.profit_optimistic = Option.none := by
  have h : estimate_arv_and_profit subjC9 payloadC9 cfgDefault = .ok rowC9d := by decide
  exact ⟨h, C9_profit_scenarios.1 subjC9 payloadC9 cfgDefault rowC9d rfl h⟩

/-- C10 (amended): a subject sqft *extracted* as `some 0` is rejected
exactly like an absent one (`MissingFieldError` for sqft), while an
*extracted* list price of exactly 0 passes validation and the valuation
proceeds to a row whose deal ratio is 0.  (At the dict interface a 0 in
the primary `price` key is collapsed to `None` by the `or` fallback and so
raises; a 0 reaching extraction, e.g. via `listPrice`, is accepted.) -/
theorem C10_zero_boundary (subject : SubjectDict) (p : CompsPayload) (cfg : AppConfig)
    (s : SubjectFields) (hs : _extract_subject_fields subject = .ok s) :
    ((s.sqft = some 0 ∨ s.sqft = Option.none) →
      estimate_arv_and_profit subject p cfg =
        .error (PyErr.missingField "Subject is missing sqft; cannot compute ARV")) ∧
    (∀ l : List ℚ, optTruthy s.sqft = true → s.price = some 0 →
      _filter_and_ppsf (payloadComps p) subject cfg = .ok l → l ≠ [] →
      (∀ c ∈ payloadComps p, ∃ v, safe_float (pyOr c.bedrooms c.beds) (some 0) = .ok v) →
      (∀ c ∈ payloadComps p, ∃ v, safe_float (pyOr c.bathrooms c.baths) (some 0) = .ok v) →
      ∃ row, estimate_arv_and_profit subject p cfg = .ok row ∧
        row.list_to_arv_pct = 0) := by
  constructor
  · intro h0
    have h2 : optTruthy s.sqft = false := by
      rcases h0 with h0 | h0 <;> simp [h0, optTruthy]
    exact estimate_sqft_missing subject p cfg s hs h2
  · intro l h2 h3 h4 h5 hbeds hbaths
    have h3ne : s.price ≠ Option.none := by simp [h3]
    obtain ⟨bl, h6⟩ := mapFloats_total _ _ (fun c hc => hbeds c (List.mem_of_mem_filter hc))
    obtain ⟨tl, h7⟩ := mapFloats_total _ _ (fun c hc => hbaths c (List.mem_of_mem_filter hc))
    exact ⟨buildRow s l bl tl cfg,
      estimate_eq_ok subject p cfg s l bl tl hs h2 h3ne h4 h5 h6 h7,
      buildRow_ratio_zero s l bl tl cfg h3⟩

/-- C10 (counterexample): `subjC10c` carries the list price 0 in its
`price` key — present and equal to 0, not absent — yet the function raises
the missing-list-price `MissingFieldError`, because `price or listPrice`
collapses the falsy 0 to `None` before the `is None` check. -/
theorem C10_counterexample :
    subjC10c.price = PyVal.num 0 ∧
    (_extract_subject_fields subjC10c).map (fun s => s.price) = .ok Option.none ∧
    estimate_arv_and_profit subjC10c payloadC10 cfgDefault =
      .error (PyErr.missingField "Subject is missing list price; cannot compute deal ratio") := by
  decide

/-- C10 (witness): a subject listed at exactly 0 (via `listPrice`) with
one valid comp gets a valuation with deal ratio 0. -/
theorem C10_zero_boundary_witness :
    ∃ row, estimate_arv_and_profit subjC10 payloadC10 cfgDefault = .ok row ∧
      row.list_to_arv_pct = 0 :=
  (C10_zero_boundary subjC10 payloadC10 cfgDefault sFieldsC10 (by decide)).2 [100]
    (by decide) (by decide) (by decide) (by decide)
    (by
      intro c hc
      rw [show payloadComps payloadC10 = [compOf 100000 1000] from by decide] at hc
      simp at hc
      subst hc
      exact ⟨some 0, rfl⟩)
    (by
      intro c hc
      rw [show payloadComps payloadC10 = [compOf 100000 1000] from by decide] at hc
      simp at hc
      subst hc
      exact ⟨some 0, rfl⟩)

/-- C1: for `subjC1` (home type "House", 3 beds) only `compC1a` survives
the PPSF filter (sample list `[100]`), but the bed/bath mean set
`valid_comps` — filtered only on truthy raw `price`/`sqft` keys — contains
both comps, so `mean_beds = 4` and the returned ARV is
`100000·(1 − 0.04) = 96000`, not `100000`: the two comparable sets
differ. -/
theorem C1_bedbath_comp_set :
    _filter_and_ppsf (payloadComps payloadC1) subjC1 cfgDefault = .ok [100] ∧
    (payloadComps payloadC1).filter (fun c => c.price.truthy && c.sqft.truthy) =
      [compC1a, compC1b] ∧
    estimate_arv_and_profit subjC1 payloadC1 cfgDefault = .ok rowC1 := by
  refine ⟨by decide, by decide, by decide⟩
